import Mathlib

/-!
Verification of the livepatch-k8s-operator charm against its specification.

The development shallowly embeds the charm's reconciliation logic
(`charms/operator-k8s/src/charm.py`) and its utility helpers (`src/utils.py`)
as executable Lean functions over an explicit model state, and proves the
specification's claims about them.
-/

set_option maxRecDepth 8000

namespace Livepatch

instance {ε α : Type} [DecidableEq ε] [DecidableEq α] : DecidableEq (Except ε α) := fun x y =>
  match x, y with
  | .error a, .error b =>
    if h : a = b then isTrue (h ▸ rfl) else isFalse (fun hh => by cases hh; exact h rfl)
  | .error _, .ok _ => isFalse (fun hh => by cases hh)
  | .ok _, .error _ => isFalse (fun hh => by cases hh)
  | .ok a, .ok b =>
    if h : a = b then isTrue (h ▸ rfl) else isFalse (fun hh => by cases hh; exact h rfl)

/-- A Python scalar value as it appears in charm configuration and in the
environment mapping handed to the pebble layer: strings, booleans, integers
and `None`. -/
inductive Value where
  | str (s : String)
  | bool (b : Bool)
  | int (n : Int)
  | pynone
deriving DecidableEq, Repr

/-- Python truthiness of a `Value`: empty string, `False`, `0` and `None`
are falsy, everything else is truthy. -/
def truthy : Value → Bool
  | .str s => s ≠ ""
  | .bool b => b
  | .int n => n ≠ 0
  | .pynone => false

/-- A Python `dict` with string keys, embedded as an association list with
unique keys maintained by `setk`. -/
abbrev Env := List (String × Value)

/-- `d[k] = v`: replace the binding of `k` if present, otherwise append
`(k, v)` at the end (Python dicts preserve insertion order). -/
def setk : Env → String → Value → Env
  | [], k, v => [(k, v)]
  | kv :: rest, k, v => if kv.1 = k then (k, v) :: rest else kv :: setk rest k v

/-- `d.get(k)`: the value bound to `k`, if any. -/
def getk : Env → String → Option Value
  | [], _ => none
  | kv :: rest, k => if kv.1 = k then some kv.2 else getk rest k

/-- The keys of a dict, in insertion order. -/
def keys (d : Env) : List String := d.map Prod.fst

/-- Python truthiness of an optional string (`None` and `""` are falsy),
used for `if not dsn:`-style guards in the charm. -/
def truthyStr : Option String → Bool
  | none => false
  | some s => s ≠ ""

/-- Python `s.replace(a, b)` for a single-character pattern. -/
def replaceChar (a b : Char) (s : String) : String :=
  ⟨s.data.map (fun c => if c = a then b else c)⟩

/-- Python `s.upper()` (the keys involved are ASCII). -/
def upperStr (s : String) : String :=
  ⟨s.data.map Char.toUpper⟩

/-- The key transform of `utils.map_config_to_env_vars`:
`"LP_" + k.replace("-", "_").replace(".", "_").upper()`. -/
def envKey (k : String) : String :=
  "LP_" ++ upperStr (replaceChar '.' '_' (replaceChar '-' '_' k))

/-- The dict comprehension
`{"LP_" + k...: v for k, v in charm.config.items()}` from
`utils.map_config_to_env_vars`. -/
def cfgToEnv (cfg : Env) : Env :=
  cfg.foldl (fun d kv => setk d (envKey kv.1) kv.2) []

/-- `utils.map_config_to_env_vars(charm)`: the transformed configuration
plus the `LP_SERVER_IS_LEADER` entry holding `charm.unit.is_leader()`
(no `additional_env` is passed by the charm). -/
def map_config_to_env_vars (cfg : Env) (isLeader : Bool) : Env :=
  setk (cfgToEnv cfg) "LP_SERVER_IS_LEADER" (.bool isLeader)

/-- The Python value stored under `PATCH_SYNC_TOKEN`:
`self._state.resource_token`, a string or `None`. -/
def tokenValue : Option String → Value
  | none => .pynone
  | some t => .str t

/-- The environment mapping assembled in
`LivepatchCharm._update_workload_container_config` before the falsy filter:
the mapped configuration plus `PATCH_SYNC_TOKEN`,
`LP_DATABASE_CONNECTION_STRING`, `LP_SERVER_SERVER_ADDRESS` and, when
`self.config.get("patch-sync.enabled") is True`, `LP_PATCH_SYNC_ID`. -/
def preEnv (cfg : Env) (dsn : String) (token : Option String)
    (isLeader : Bool) (uuid : String) : Env :=
  let e := map_config_to_env_vars cfg isLeader
  let e := setk e "PATCH_SYNC_TOKEN" (tokenValue token)
  let e := setk e "LP_DATABASE_CONNECTION_STRING" (.str dsn)
  let e := setk e "LP_SERVER_SERVER_ADDRESS" (.str ":8080")
  if getk cfg "patch-sync.enabled" = some (.bool true) then
    setk e "LP_PATCH_SYNC_ID" (.str uuid)
  else e

/-- The final environment handed to the pebble layer:
`{key: value for key, value in env_vars.items() if value}`. -/
def finalEnv (cfg : Env) (dsn : String) (token : Option String)
    (isLeader : Bool) (uuid : String) : Env :=
  (preEnv cfg dsn token isLeader uuid).filter (fun kv => truthy kv.2)

/-- The outcome of `container.exec(...)` followed by `process.wait_output()`:
either the exec call itself fails (`pebble.APIError`), or the command runs
and finishes with an exit code (`wait_output` raises `pebble.ExecError`
carrying the code when it is nonzero). -/
inductive ExecOutcome where
  | apiError
  | exit (code : Nat)
deriving DecidableEq, Repr

/-- A Python exception escaping one of the embedded functions. -/
inductive PyErr where
  | valueError (msg : String)
  | apiError
  | execError (code : Nat)
deriving DecidableEq, Repr

/-- A unit status set by the charm. -/
inductive Status where
  | active
  | waiting (msg : String)
  | blocked (msg : String)
deriving DecidableEq, Repr

/-- An observable side effect issued by the charm against the pebble
containers or the event, in program order. -/
inductive Effect where
  | pushFile (path : String) (content : String)
  | runSchemaCheck
  | runSchemaUpgrade
  | addLayer (env : Env)
  | replan
  | startService
  | deferEvent
deriving DecidableEq, Repr

/-- The result of one run of a charm handler: the ordered list of effects
it issued and the unit status it left behind (`none` = status unchanged). -/
structure RecResult where
  effects : List Effect
  status : Option Status
deriving DecidableEq, Repr

/-- `LivepatchCharm.migration_is_required(container, conn_str)`. On a
non-leader it returns `None` (embedded as `.ok none`); otherwise it raises
if the schema tool is missing or the connection string is falsy, runs the
check command, and maps exit code 0 to `False`, exit code 2 to `True`, and
re-raises any other failure. The first component records whether the check
command was executed. -/
def migration_is_required (isLeader toolExists : Bool) (connStr : String)
    (ex : ExecOutcome) : List Effect × Except PyErr (Option Bool) :=
  if ¬ isLeader then ([], .ok none)
  else if ¬ toolExists then ([], .error (.valueError "Failed to find schema tool"))
  else if connStr = "" then ([], .error (.valueError "Database connection string is None"))
  else match ex with
    | .apiError => ([.runSchemaCheck], .error .apiError)
    | .exit 0 => ([.runSchemaCheck], .ok (some false))
    | .exit c => ([.runSchemaCheck],
        if c = 2 then .ok (some true) else .error (.execError c))

/-- `LivepatchCharm.schema_upgrade(container, conn_str)`: a no-op on
non-leaders; on the leader it runs the upgrade command unless the schema
tool is missing, and sets a waiting/blocked status according to the
outcome. It never raises. -/
def schema_upgrade (isLeader toolExists : Bool) (ex : ExecOutcome) :
    List Effect × Option Status :=
  if ¬ isLeader then ([], none)
  else if ¬ toolExists then ([], some (.blocked "Cannot find schema upgrade tool"))
  else match ex with
    | .apiError => ([.runSchemaUpgrade], some (.blocked "Schema migration failed"))
    | .exit 0 => ([.runSchemaUpgrade], some (.waiting "Schema migration done"))
    | .exit _ =>
      ([.runSchemaUpgrade],
        some (.blocked "Schema migration failed - executing migration failed"))

/-- The content of `LivepatchCharm._get_logrotate_config()`. -/
def logrotateConfig : String :=
  "/var/log/livepatch \x7b\n            rotate 3\n            daily\n            compress\n            delaycompress\n            missingok\n            notifempty\n            size 10M\n\x7d\n"

/-- The path the logrotate configuration is pushed to. -/
def logrotatePath : String := "/etc/logrotate.d/livepatch"

/-- The externally observable state a reconciliation of the operator-k8s
charm runs against: peer state, leadership, relation data, container
connectivity and the outcomes of the exec calls it may issue. -/
structure ModelState where
  stateReady : Bool
  dsn : Option String
  resourceToken : Option String
  isLeader : Bool
  config : Env
  schemaCanConnect : Bool
  workloadCanConnect : Bool
  schemaToolExists : Bool
  checkExec : ExecOutcome
  upgradeExec : ExecOutcome
  serviceRunning : Bool
  modelUuid : String
deriving DecidableEq, Repr

/-- `LivepatchCharm._update_workload_container_config(event)`, as a function
from the model state to the effects issued and the final unit status.

Faithful transcription: state-readiness guard (defer); logrotate push via
`_push_to_workload` (which defers when the workload container is not
connectable but lets the reconciliation continue); falsy-dsn guard
(blocked, defer); schema-container connectivity guard (waiting, defer);
`migration_is_required` with exceptions swallowed (plain `return`, status
unchanged); the upgrade-required branch (leader runs `schema_upgrade`
inline, a non-leader would go waiting and defer); environment assembly and
falsy filtering; then layer add + replan/start and `ActiveStatus`, or
waiting + defer when the workload container is not connectable. -/
def update_workload_container_config (s : ModelState) : RecResult :=
  if ¬ s.stateReady then ⟨[.deferEvent], none⟩
  else
    let pushE : List Effect :=
      if s.workloadCanConnect then [.pushFile logrotatePath logrotateConfig]
      else [.deferEvent]
    if ¬ truthyStr s.dsn then
      ⟨pushE ++ [.deferEvent], some (.blocked "waiting for pg relation.")⟩
    else if ¬ s.schemaCanConnect then
      ⟨pushE ++ [.deferEvent], some (.waiting "Waiting to connect - schema container.")⟩
    else
      let dsnStr := s.dsn.getD ""
      let chk := migration_is_required s.isLeader s.schemaToolExists dsnStr s.checkExec
      match chk.2 with
      | .error _ => ⟨pushE ++ chk.1, none⟩
      | .ok req =>
        if req = some true ∧ ¬ s.isLeader then
          ⟨pushE ++ chk.1 ++ [.deferEvent], some (.waiting "waiting for schema upgrade")⟩
        else
          let up :=
            if req = some true then
              schema_upgrade s.isLeader s.schemaToolExists s.upgradeExec
            else ([], none)
          let env := finalEnv s.config dsnStr s.resourceToken s.isLeader s.modelUuid
          if s.workloadCanConnect then
            ⟨pushE ++ chk.1 ++ up.1 ++
              [.addLayer env, if s.serviceRunning then .replan else .startService],
              some .active⟩
          else
            ⟨pushE ++ chk.1 ++ up.1 ++ [.deferEvent],
              some (.waiting "Waiting to connect - workload container")⟩

/-- What `LivepatchCharm._on_legacy_db_relation_joined` does apart from
raising: defer, set `event.database` on the leader, or nothing. -/
inductive LegacyJoinedRes where
  | deferred
  | setDatabase (name : String)
  | noop
deriving DecidableEq, Repr

/-- `LivepatchCharm._on_legacy_db_relation_joined(event)`. `dbActivated`
embeds `self._is_database_relation_activated()` (the modern `database`
relation has at least one member); a raised `RuntimeError` is `.error` with
its message. -/
def on_legacy_db_relation_joined (stateReady isLeader dbActivated : Bool)
    (evDatabase : String) : Except String LegacyJoinedRes :=
  if ¬ stateReady then .ok .deferred
  else if isLeader then
    if dbActivated then
      .error ("Integration with both database relations is not allowed; `database` is already activated.")
    else .ok (.setDatabase "livepatch-server")
  else if evDatabase ≠ "livepatch-server" then .ok .deferred
  else .ok .noop

/-- `endpoints.split(",", 1)[0]`: the prefix of the endpoint list before
the first comma (the whole string when it has no comma). -/
def firstEndpoint (endpoints : String) : String :=
  ⟨endpoints.data.takeWhile (· ≠ ',')⟩

/-- The visible result of `LivepatchCharm._on_database_event` when it does
not raise: the dsn written to peer state, if any, and whether the event was
deferred. -/
structure DbEventRes where
  dsnWrite : Option String
  deferred : Bool
deriving DecidableEq, Repr

/-- `LivepatchCharm._on_database_event(event)`. `legacyActivated` embeds
`self._is_legacy_database_relation_activated()`; a raised `RuntimeError` is
`.error` with its message. On complete relation data the handler writes
`postgresql://{username}:{password}@{first endpoint}/livepatch-server`
into `self._state.dsn`, taking the first of the comma-separated
`event.endpoints`. -/
def on_database_event (isLeader stateReady legacyActivated : Bool)
    (username password : Option String) (endpoints : String) :
    Except String DbEventRes :=
  if ¬ isLeader then .ok ⟨none, false⟩
  else if ¬ stateReady then .ok ⟨none, true⟩
  else if legacyActivated then
    .error ("Integration with both database relations is not allowed; `database-legacy` is already activated.")
  else match username, password with
    | some u, some p =>
      .ok ⟨some ("postgresql://" ++ u ++ ":" ++ p ++ "@"
        ++ firstEndpoint endpoints ++ "/livepatch-server"), false⟩
    | _, _ => .ok ⟨none, true⟩

/-- `pat` is a leading segment of `s` (over char lists). -/
def starts : List Char → List Char → Bool
  | [], _ => true
  | _ :: _, [] => false
  | a :: pat, b :: s => a = b && starts pat s

/-- `pat` occurs somewhere in `s` (over char lists). -/
def hasSub (pat : List Char) : List Char → Bool
  | [] => starts pat []
  | c :: rest => starts pat (c :: rest) || hasSub pat rest

/-- `pat` occurs as a substring of `s`. -/
def containsStr (s pat : String) : Bool :=
  hasSub pat.data s.data

/-- The outcome of `utils.get_system_information()` as observed by its
caller: it either returns the information dict, or one of its unguarded
steps raises — `open("/etc/os-release")` can raise `OSError`, and
`subprocess.check_output(["uname", ...])` can raise
`CalledProcessError`/`OSError`. Only the outcome matters to the token flow:
the returned dict feeds the request payload but never the returned token. -/
inductive SysInfoOutcome where
  | ok
  | raises (exc : String)
deriving DecidableEq, Repr

/-- The outcome of one HTTP call made by the token helpers: the request (or
`response.json()` in current `requests`, where JSON decode errors subclass
`RequestException`) raises `requests.exceptions.RequestException`; or it
returns a response whose JSON body is an object (modelled flat and
string-valued); or it returns a response whose JSON body is valid but not
an object (a list, string, number, ...), on which `.get` does not exist. -/
inductive HttpOutcome where
  | requestError
  | objJson (fields : List (String × String))
  | nonObjJson
deriving DecidableEq, Repr

/-- Lookup in a flat JSON object. -/
def jget : List (String × String) → String → Option String
  | [], _ => none
  | kv :: rest, k => if kv.1 = k then some kv.2 else jget rest k

/-- The outcome of calling one of the Python token helpers: either it
returns a value (a string or `None`), or an exception escapes it
uncaught. -/
inductive TokenResult where
  | value (v : Option String)
  | raised (exc : String)
deriving DecidableEq, Repr

/-- `utils.get_machine_token(...)`: `get_system_information()` runs
*before* the `try` block (utils.py:51), so its exceptions propagate
uncaught. Within the `try`, a `RequestException` yields `None` (the
`except KeyError` clause is dead: `dict.get` never raises `KeyError`);
`response.json().get("machineToken", "")` yields the field or `""` when
the body is an object, and raises `AttributeError` — caught by neither
except clause — when the body is valid non-object JSON. -/
def get_machine_token (sys : SysInfoOutcome) (o : HttpOutcome) : TokenResult :=
  match sys with
  | .raises e => .raised e
  | .ok =>
    match o with
    | .requestError => .value none
    | .objJson fs => .value (some ((jget fs "machineToken").getD ""))
    | .nonObjJson => .raised "AttributeError"

/-- `utils.get_resource_token(...)`: a `RequestException` yields `None`;
`req.json().get("resourceToken", "")` yields the field or `""` when the
body is an object, and raises `AttributeError` — caught by neither except
clause — when the body is valid non-object JSON. -/
def get_resource_token (o : HttpOutcome) : TokenResult :=
  match o with
  | .requestError => .value none
  | .objJson fs => .value (some ((jget fs "resourceToken").getD ""))
  | .nonObjJson => .raised "AttributeError"

/-- The visible result of `LivepatchCharm.get_resource_token_action`: the
payload passed to `event.set_results`, and the value written to
`self._state.resource_token` (`none` = no write at all; `some v` = the
Python value `v` was persisted, `v = none` standing for `None`). -/
structure ActionRes where
  results : List (String × String)
  tokenWrite : Option (Option String)
deriving DecidableEq, Repr

/-- `LivepatchCharm.get_resource_token_action(event)`: leader and
peer-state guards return structured errors; a falsy machine token returns a
structured error; otherwise the resource token — whatever
`utils.get_resource_token` returned, checked by nothing — is persisted and
the success result is set. The action catches nothing itself, so an
exception escaping either helper escapes the action (`.error`). -/
def get_resource_token_action (isLeader stateReady : Bool)
    (sys : SysInfoOutcome) (machineResp resourceResp : HttpOutcome) :
    Except String ActionRes :=
  if ¬ isLeader then
    .ok ⟨[("error", "cannot fetch the resource token: unit is not the leader")], none⟩
  else if ¬ stateReady then
    .ok ⟨[("error", "cannot fetch the resource token: peer relation not ready")], none⟩
  else
    match get_machine_token sys machineResp with
    | .raised e => .error e
    | .value machineToken =>
      if ¬ truthyStr machineToken then
        .ok ⟨[("error", "cannot fetch the resource token: failed to fetch the machine token")],
             none⟩
      else
        match get_resource_token resourceResp with
        | .raised e => .error e
        | .value resourceToken =>
          .ok ⟨[("result", "resource token set")], some resourceToken⟩

/-- The external state of one reconciliation of the repository's root charm
(`src/charm.py`). -/
structure RootState where
  workloadCanConnect : Bool
  dsn : Option String
  resourceToken : Option String
  isLeader : Bool
  migrationRequired : Bool
  config : Env
  serviceRunning : Bool
  modelUuid : String
deriving DecidableEq, Repr

/-- Python truthiness of an optional `Value`. -/
def truthyOpt : Option Value → Bool
  | none => false
  | some v => truthy v

/-- Modelled from the spec: the root charm `src/charm.py` is absent from the
snapshot (only its unit tests under `tests/unit/test_charm.py` are present),
so its reconciliation procedure `_update_workload_container_config` is
modelled from spec §4.4: defer when the workload supervisor is not
connectable; blocked when the dsn is absent; the schema-migration gate (the
leader runs the upgrade synchronously, a non-leader goes waiting and
defers); then validation of unconditionally-required settings — a missing
`server.url-template` yields `blocked("✘ server.url-template config not
set")` with no workload update applied; a self-hosted instance without a
sync token yields `blocked("✘ patch-sync token not set, run
get-resource-token action")`; finally the desired state is applied via a
merge-style layer and the service is replanned or started. -/
def rootReconcile (s : RootState) : RecResult :=
  if ¬ s.workloadCanConnect then ⟨[.deferEvent], none⟩
  else if ¬ truthyStr s.dsn then
    ⟨[.deferEvent], some (.blocked "waiting for pg relation")⟩
  else if s.migrationRequired ∧ ¬ s.isLeader then
    ⟨[.deferEvent], some (.waiting "waiting for schema upgrade")⟩
  else
    let upE : List Effect := if s.migrationRequired then [.runSchemaUpgrade] else []
    if ¬ truthyOpt (getk s.config "server.url-template") then
      ⟨upE, some (.blocked "✘ server.url-template config not set")⟩
    else if getk s.config "server.is-hosted" = some (.bool false)
        ∧ ¬ truthyStr s.resourceToken then
      ⟨upE, some (.blocked "✘ patch-sync token not set, run get-resource-token action")⟩
    else
      ⟨upE ++ [.addLayer
          (finalEnv s.config (s.dsn.getD "") s.resourceToken s.isLeader s.modelUuid),
        if s.serviceRunning then .replan else .startService],
        some .active⟩

/-! ### Dictionary lemmas -/

theorem getk_setk (d : Env) (k : String) (v : Value) (q : String) :
    getk (setk d k v) q = if q = k then some v else getk d q := by
  induction d with
  | nil =>
    by_cases h : q = k <;> simp_all [setk, getk, eq_comm]
  | cons kv rest ih =>
    by_cases hk : kv.1 = k <;> by_cases hq : q = k <;>
      by_cases hq2 : kv.1 = q <;> simp_all [setk, getk]

theorem mem_keys_iff_getk (d : Env) (q : String) :
    q ∈ keys d ↔ ∃ v, getk d q = some v := by
  induction d with
  | nil => simp [keys, getk]
  | cons kv rest ih =>
    simp only [keys, List.map_cons, List.mem_cons, getk]
    by_cases h : kv.1 = q
    · simp [h]
    · simp only [h, if_false]
      rw [← keys, ih]
      constructor
      · rintro (rfl | hh)
        · exact absurd rfl h
        · exact hh
      · exact Or.inr

theorem getk_eq_none_iff (d : Env) (q : String) :
    getk d q = none ↔ q ∉ keys d := by
  rw [mem_keys_iff_getk]
  cases h : getk d q <;> simp [h]

theorem mem_keys_setk (d : Env) (k : String) (v : Value) (q : String) :
    q ∈ keys (setk d k v) ↔ q = k ∨ q ∈ keys d := by
  rw [mem_keys_iff_getk, getk_setk]
  by_cases h : q = k
  · simp [h]
  · simp [h, ← mem_keys_iff_getk]

theorem nodup_keys_setk (d : Env) (k : String) (v : Value)
    (h : (keys d).Nodup) : (keys (setk d k v)).Nodup := by
  induction d with
  | nil => simp [setk, keys]
  | cons kv rest ih =>
    simp only [keys, List.map_cons, List.nodup_cons] at h
    simp only [setk]
    by_cases hk : kv.1 = k
    · subst hk
      simpa [keys, List.nodup_cons] using h
    · simp only [hk, if_false, keys, List.map_cons, List.nodup_cons]
      refine ⟨?_, ih h.2⟩
      intro hmem
      rcases (mem_keys_setk rest k v kv.1).mp hmem with rfl | hmem
      · exact hk rfl
      · exact h.1 hmem

theorem getk_filter_truthy (d : Env) (h : (keys d).Nodup) (q : String) :
    getk (d.filter fun kv => truthy kv.2) q
      = (getk d q).bind (fun v => if truthy v then some v else none) := by
  induction d with
  | nil => simp [getk]
  | cons kv rest ih =>
    simp only [keys, List.map_cons, List.nodup_cons] at h
    by_cases ht : truthy kv.2
    · by_cases hq : kv.1 = q
      · simp [List.filter_cons, ht, getk, hq]
      · simp [List.filter_cons, ht, getk, hq, ih h.2]
    · by_cases hq : kv.1 = q
      · subst hq
        have hnone : getk rest kv.1 = none := (getk_eq_none_iff rest kv.1).mpr h.1
        have : getk (rest.filter fun kv => truthy kv.2) kv.1 = none := by
          rw [ih h.2, hnone]
          rfl
        simp [List.filter_cons, ht, getk, this]
      · simp [List.filter_cons, ht, getk, hq, ih h.2]

theorem getk_append (d₁ d₂ : Env) (q : String) :
    getk (d₁ ++ d₂) q = ((getk d₁ q).rec (getk d₂ q) (fun v => some v)) := by
  induction d₁ with
  | nil => simp [getk]
  | cons kv rest ih =>
    by_cases hq : kv.1 = q <;> simp [getk, hq, ih]

theorem getk_foldl_isSome (cfg : Env) (d : Env) (q : String) :
    (getk (cfg.foldl (fun d kv => setk d (envKey kv.1) kv.2) d) q).isSome
      ↔ (getk d q).isSome ∨ ∃ kv ∈ cfg, envKey kv.1 = q := by
  induction cfg generalizing d with
  | nil => simp
  | cons kv rest ih =>
    simp only [List.foldl_cons, ih, getk_setk, List.mem_cons]
    by_cases hq : q = envKey kv.1
    · simp [hq]
    · have hq' : ¬ envKey kv.1 = q := fun hh => hq hh.symm
      simp only [hq, if_false]
      constructor
      · rintro (h | h)
        · exact Or.inl h
        · obtain ⟨p, hp, hpe⟩ := h
          exact Or.inr ⟨p, Or.inr hp, hpe⟩
      · rintro (h | ⟨p, hp | hp, hpe⟩)
        · exact Or.inl h
        · exact absurd hpe (by simpa [hp] using hq')
        · exact Or.inr ⟨p, hp, hpe⟩

theorem getk_cfgToEnv_isSome (cfg : Env) (q : String) :
    (getk (cfgToEnv cfg) q).isSome ↔ ∃ kv ∈ cfg, envKey kv.1 = q := by
  simpa [cfgToEnv, getk] using getk_foldl_isSome cfg [] q

theorem nodup_keys_foldl (cfg : Env) (d : Env) (h : (keys d).Nodup) :
    (keys (cfg.foldl (fun d kv => setk d (envKey kv.1) kv.2) d)).Nodup := by
  induction cfg generalizing d with
  | nil => exact h
  | cons kv rest ih => exact ih _ (nodup_keys_setk _ _ _ h)

theorem nodup_keys_cfgToEnv (cfg : Env) : (keys (cfgToEnv cfg)).Nodup :=
  nodup_keys_foldl cfg [] (by simp [keys])

theorem cfgToEnv_append (cfg : Env) (p : String × Value) :
    cfgToEnv (cfg ++ [p]) = setk (cfgToEnv cfg) (envKey p.1) p.2 := by
  simp [cfgToEnv, List.foldl_append]

theorem getk_preEnv (cfg : Env) (dsn : String) (token : Option String)
    (ldr : Bool) (uuid : String) (q : String) :
    getk (preEnv cfg dsn token ldr uuid) q =
      if getk cfg "patch-sync.enabled" = some (.bool true) ∧ q = "LP_PATCH_SYNC_ID"
        then some (.str uuid)
      else if q = "LP_SERVER_SERVER_ADDRESS" then some (.str ":8080")
      else if q = "LP_DATABASE_CONNECTION_STRING" then some (.str dsn)
      else if q = "PATCH_SYNC_TOKEN" then some (tokenValue token)
      else if q = "LP_SERVER_IS_LEADER" then some (.bool ldr)
      else getk (cfgToEnv cfg) q := by
  by_cases hps : getk cfg "patch-sync.enabled" = some (.bool true) <;>
    simp only [preEnv, map_config_to_env_vars, hps, if_true, if_false,
      true_and, false_and, getk_setk] <;>
    (split_ifs <;> simp_all)

theorem nodup_keys_preEnv (cfg : Env) (dsn : String) (token : Option String)
    (ldr : Bool) (uuid : String) :
    (keys (preEnv cfg dsn token ldr uuid)).Nodup := by
  simp only [preEnv, map_config_to_env_vars]
  have h0 := nodup_keys_cfgToEnv cfg
  split_ifs <;>
    repeat' apply nodup_keys_setk
  all_goals exact h0

/-! ### Claims -/

/-- C1: Database relation mutual exclusion. For every relation event handled
on the leader (with peer state ready, the guard both handlers apply before
resolving), if the legacy `database-legacy` relation is already integrated
when a modern `database` relation event fires, `_on_database_event` raises a
`RuntimeError` whose message names `database-legacy`; symmetrically, if the
modern `database` relation is already integrated when a `database-legacy`
relation-joined event fires, `_on_legacy_db_relation_joined` raises a
`RuntimeError` whose message names `database`. In both directions the
handler errors out instead of silently preferring one relation. -/
theorem c1_database_relation_mutual_exclusion :
    ∀ (u p : Option String) (eps evdb : String),
      (∃ m, on_database_event true true true u p eps = .error m
         ∧ containsStr m "database-legacy" = true)
      ∧ (∃ m, on_legacy_db_relation_joined true true true evdb = .error m
         ∧ containsStr m "database" = true) := by
  intro u p eps evdb
  exact ⟨⟨_, rfl, by decide⟩, ⟨_, rfl, by decide⟩⟩

/-- C2: Schema migration check exit-code mapping. On the leader, with the
schema tool present and a non-empty connection string, the check command's
exit code 0 makes `migration_is_required` return `False`, exit code 2 makes
it return `True`, and any other non-zero exit code makes it re-raise the
execution error. -/
theorem c2_migration_check_exit_codes (cs : String) (hcs : cs ≠ "") :
    ((migration_is_required true true cs (.exit 0)).2 = .ok (some false))
    ∧ ((migration_is_required true true cs (.exit 2)).2 = .ok (some true))
    ∧ (∀ c : Nat, c ≠ 0 → c ≠ 2 →
        (migration_is_required true true cs (.exit c)).2 = .error (.execError c)) := by
  refine ⟨?_, ?_, ?_⟩
  · simp [migration_is_required, hcs]
  · simp [migration_is_required, hcs]
  · intro c h0 h2
    cases c with
    | zero => exact absurd rfl h0
    | succ n => simp [migration_is_required, hcs, h2]

/-- Witness for C2 at a concrete connection string and exit codes. -/
theorem c2_witness :
    (migration_is_required true true "postgresql://x" (.exit 0)).2 = .ok (some false)
    ∧ (migration_is_required true true "postgresql://x" (.exit 2)).2 = .ok (some true)
    ∧ (migration_is_required true true "postgresql://x" (.exit 3)).2
        = .error (.execError 3) :=
  ⟨(c2_migration_check_exit_codes "postgresql://x" (by decide)).1,
   (c2_migration_check_exit_codes "postgresql://x" (by decide)).2.1,
   (c2_migration_check_exit_codes "postgresql://x" (by decide)).2.2 3
     (by decide) (by decide)⟩

/-- C5: Modern database resolution. On the leader with peer state ready and
the legacy relation inactive: when username and password are both present,
the dsn written to peer state is exactly
`postgresql://{username}:{password}@{first-endpoint}/livepatch-server`,
where the first endpoint is the prefix of the comma-separated endpoint list
before the first comma; when username or password is missing the event is
deferred with no dsn write and no error. -/
theorem c5_modern_database_resolution (u p : String) (eps : String)
    (po uo : Option String) (a b : String) (ha : ',' ∉ a.data) :
    (on_database_event true true false (some u) (some p) eps
      = .ok ⟨some ("postgresql://" ++ u ++ ":" ++ p ++ "@"
          ++ firstEndpoint eps ++ "/livepatch-server"), false⟩)
    ∧ (on_database_event true true false none po eps = .ok ⟨none, true⟩)
    ∧ (on_database_event true true false (some u) none eps = .ok ⟨none, true⟩)
    ∧ (on_database_event true true false uo none eps ≠ .error "x" →
        ∀ m, on_database_event true true false uo none eps ≠ .error m)
    ∧ firstEndpoint (a ++ "," ++ b) = a := by
  refine ⟨rfl, ?_, rfl, ?_, ?_⟩
  · cases po <;> rfl
  · intro _ m
    cases uo <;> simp [on_database_event]
  · have hd : (a ++ "," ++ b).data = a.data ++ (',' :: b.data) := by
      simp
    have htake : ∀ l : List Char, ',' ∉ l →
        (l ++ (',' :: b.data)).takeWhile (· ≠ ',') = l := by
      intro l hl
      induction l with
      | nil => simp [List.takeWhile]
      | cons c rest ih =>
        simp only [List.mem_cons, not_or] at hl
        have hc : c ≠ ',' := fun hh => hl.1 hh.symm
        simp [List.takeWhile, hc]
        simpa using ih hl.2
    simp only [firstEndpoint, hd, htake a.data ha]

/-- Witness for C5 at concrete relation data. -/
theorem c5_witness :
    (',' ∉ ("h1:5432" : String).data)
    ∧ on_database_event true true false (some "u") (some "p") "h1:5432,h2:5432"
        = .ok ⟨some ("postgresql://" ++ "u" ++ ":" ++ "p" ++ "@"
            ++ firstEndpoint "h1:5432,h2:5432" ++ "/livepatch-server"), false⟩
    ∧ firstEndpoint ("h1:5432" ++ "," ++ "h2:5432") = "h1:5432" :=
  ⟨by decide,
   (c5_modern_database_resolution "u" "p" "h1:5432,h2:5432" none none
      "h1:5432" "h2:5432" (by decide)).1,
   (c5_modern_database_resolution "u" "p" "h1:5432,h2:5432" none none
      "h1:5432" "h2:5432" (by decide)).2.2.2.2⟩

/-- C9 counterexample: the token helpers are not total at the Python
level. `get_machine_token` calls `get_system_information()` before its
`try` block, so a failure there (e.g. `OSError` from `open`) escapes
uncaught; and in both helpers a successful response whose JSON body is
valid but not an object — a body that also "lacks the expected field" —
makes `data.get` raise `AttributeError`, caught by neither except
clause. -/
theorem c9_counterexample :
    get_machine_token (.raises "OSError") (.objJson [("machineToken", "mt")])
      = .raised "OSError"
    ∧ get_machine_token .ok .nonObjJson = .raised "AttributeError"
    ∧ get_resource_token .nonObjJson = .raised "AttributeError" := by
  decide

/-- C9 amended: within the guarded HTTP call the helpers never raise — a
request exception yields `None` (and `None` arises only there), and a
successful object response lacking the expected field yields the empty
string — but they are not total: `get_machine_token`'s system-information
step, run before the `try`, propagates its exceptions uncaught, and a
successful response whose JSON body is valid non-object JSON raises
`AttributeError` from `data.get`, caught by neither except clause. -/
theorem c9_token_helpers :
    ∀ (fs : List (String × String)) (e : String) (o : HttpOutcome),
      (get_machine_token .ok .requestError = .value none)
      ∧ (get_resource_token .requestError = .value none)
      ∧ (jget fs "machineToken" = none →
          get_machine_token .ok (.objJson fs) = .value (some ""))
      ∧ (jget fs "resourceToken" = none →
          get_resource_token (.objJson fs) = .value (some ""))
      ∧ (get_machine_token .ok o = .value none ↔ o = .requestError)
      ∧ (get_resource_token o = .value none ↔ o = .requestError)
      ∧ (get_machine_token (.raises e) o = .raised e)
      ∧ (get_machine_token .ok .nonObjJson = .raised "AttributeError")
      ∧ (get_resource_token .nonObjJson = .raised "AttributeError") := by
  intro fs e o
  refine ⟨rfl, rfl, ?_, ?_, ?_, ?_, rfl, rfl, rfl⟩
  · intro h; simp [get_machine_token, h]
  · intro h; simp [get_resource_token, h]
  · cases o <;> simp [get_machine_token]
  · cases o <;> simp [get_resource_token]

/-- Witness for C9 (amended) at a response missing the expected field and
at a request error. -/
theorem c9_witness :
    get_machine_token .ok (.objJson [("other", "x")]) = .value (some "")
    ∧ get_resource_token .requestError = .value none :=
  ⟨(c9_token_helpers [("other", "x")] "E" .requestError).2.2.1 (by decide),
   (c9_token_helpers [] "E" .requestError).2.1⟩

/-- C3 counterexample: with the machine-token exchange succeeding and the
resource-token exchange failing with a request error (so
`utils.get_resource_token` returns `None`), `get_resource_token_action`
still reports the structured success result and persists the failed value
(`None`) into peer state — the claim's "on any failure, return a
structured error result and persist nothing" is false for the
resource-token step. -/
theorem c3_counterexample :
    get_resource_token_action true true .ok (.objJson [("machineToken", "mt")])
        .requestError
      = .ok ⟨[("result", "resource token set")], some none⟩ := by
  decide

/-- C3 amended: on the leader with peer state ready, a falsy machine token
makes the action return the structured error result and persist nothing;
once the machine token is truthy the action persists whatever value the
resource-token exchange returned — including `None` or `""` on failure —
and reports the structured success result `{result: "resource token set"}`
unconditionally. -/
theorem c3_resource_token_action (sys : SysInfoOutcome)
    (machineResp resourceResp : HttpOutcome) (mt rt : Option String) :
    (get_machine_token sys machineResp = .value mt → ¬ truthyStr mt →
      get_resource_token_action true true sys machineResp resourceResp
        = .ok ⟨[("error", "cannot fetch the resource token: failed to fetch the machine token")],
               none⟩)
    ∧ (get_machine_token sys machineResp = .value mt → truthyStr mt →
        get_resource_token resourceResp = .value rt →
      get_resource_token_action true true sys machineResp resourceResp
        = .ok ⟨[("result", "resource token set")], some rt⟩) := by
  constructor
  · intro hm hf
    simp [get_resource_token_action, hm, hf]
  · intro hm ht hr
    simp [get_resource_token_action, hm, ht, hr]

/-- Witness for C3 (amended) at concrete successful fixtures: both token
exchanges succeed, the resource token is persisted, the success result is
returned. -/
theorem c3_witness :
    get_resource_token_action true true .ok (.objJson [("machineToken", "mt")])
        (.objJson [("resourceToken", "rt")])
      = .ok ⟨[("result", "resource token set")], some (some "rt")⟩ :=
  (c3_resource_token_action .ok (.objJson [("machineToken", "mt")])
      (.objJson [("resourceToken", "rt")]) (some "mt") (some "rt")).2
    (by decide) (by decide) (by decide)

/-- C6: Required-setting validation in the root charm (modelled from the
spec; `src/charm.py` is absent from the snapshot). On a leader with dsn and
resource token set and no migration pending, an omitted
`server.url-template` configuration option makes reconciliation end blocked
with exactly `"✘ server.url-template config not set"`, with no effect on
the workload (no layer added, empty plan). -/
theorem c6_url_template_required (s : RootState)
    (h1 : s.workloadCanConnect = true) (h2 : s.isLeader = true)
    (h3 : truthyStr s.dsn = true) (h4 : truthyStr s.resourceToken = true)
    (h5 : s.migrationRequired = false)
    (h6 : getk s.config "server.url-template" = none) :
    rootReconcile s
      = ⟨[], some (.blocked "✘ server.url-template config not set")⟩ := by
  simp [rootReconcile, h1, h2, h3, h5, h6, truthyOpt]

/-- Witness for C6 at a concrete root-charm state. -/
theorem c6_witness :
    rootReconcile ⟨true, some "postgres://x", some "tok", true, false, [], false, "u"⟩
      = ⟨[], some (.blocked "✘ server.url-template config not set")⟩ :=
  c6_url_template_required
    ⟨true, some "postgres://x", some "tok", true, false, [], false, "u"⟩
    (by decide) (by decide) (by decide) (by decide) (by decide) (by decide)

/-- C7: the operator-k8s charm evaluated at the claim's scenario — a
non-leader unit, peer state ready, dsn resolved, schema container
connectable, schema tool present, and the check command reporting pending
migrations (exit code 2). Because `migration_is_required` returns `None` on
non-leaders without running the check, the reconciliation neither goes
waiting ("waiting for schema upgrade") nor defers: it proceeds to configure
and start the workload and ends active. The upgrade is indeed never
executed, but the claimed waiting/defer outcome does not happen. -/
theorem c7_nonleader_migration_skipped :
    (update_workload_container_config
        ⟨true, some "postgresql://u:p@h/livepatch-server", some "tok", false, [],
         true, true, true, .exit 2, .exit 0, true, "uuid"⟩).status = some .active
    ∧ (update_workload_container_config
        ⟨true, some "postgresql://u:p@h/livepatch-server", some "tok", false, [],
         true, true, true, .exit 2, .exit 0, true, "uuid"⟩).status
        ≠ some (.waiting "waiting for schema upgrade")
    ∧ Effect.deferEvent ∉ (update_workload_container_config
        ⟨true, some "postgresql://u:p@h/livepatch-server", some "tok", false, [],
         true, true, true, .exit 2, .exit 0, true, "uuid"⟩).effects
    ∧ Effect.runSchemaCheck ∉ (update_workload_container_config
        ⟨true, some "postgresql://u:p@h/livepatch-server", some "tok", false, [],
         true, true, true, .exit 2, .exit 0, true, "uuid"⟩).effects
    ∧ Effect.runSchemaUpgrade ∉ (update_workload_container_config
        ⟨true, some "postgresql://u:p@h/livepatch-server", some "tok", false, [],
         true, true, true, .exit 2, .exit 0, true, "uuid"⟩).effects := by
  decide

/-- C10 (implicit): whenever peer state is ready and the workload container
is connectable, the very first effect of the reconciliation is the push of
the logrotate configuration to `/etc/logrotate.d/livepatch` — it happens
before the dsn, schema-container and migration checks, so it occurs even in
reconciliations that end blocked, waiting or deferred. -/
theorem c10_logrotate_pushed_first (s : ModelState)
    (h1 : s.stateReady = true) (h2 : s.workloadCanConnect = true) :
    (update_workload_container_config s).effects.head?
      = some (.pushFile logrotatePath logrotateConfig) := by
  simp only [update_workload_container_config, h1, h2]
  repeat' split
  all_goals simp_all

/-- Witness for C10 at a concrete state that ends blocked (no dsn): the
logrotate push still happened first. -/
theorem c10_witness :
    (update_workload_container_config
        ⟨true, none, none, true, [], false, true, false, .exit 0, .exit 0,
         false, "u"⟩).effects.head?
      = some (.pushFile logrotatePath logrotateConfig) :=
  c10_logrotate_pushed_first
    ⟨true, none, none, true, [], false, true, false, .exit 0, .exit 0, false, "u"⟩
    (by decide) (by decide)

/-- C4 counterexample: with `patch-sync.enabled = True` in the
configuration, the final environment contains `LP_PATCH_SYNC_ID` (set to
the model uuid), a key that is neither a transform of a configuration key
nor one of the four fixed extras named by the claim — so the claimed key
set is not exhaustive. -/
theorem c4_counterexample :
    "LP_PATCH_SYNC_ID" ∈ keys
        (finalEnv [("patch-sync.enabled", Value.bool true)] "dsn0" (some "tok0") true "uuid0")
    ∧ "LP_PATCH_SYNC_ID" ∉
        ([("patch-sync.enabled", Value.bool true)] : Env).map (fun kv => envKey kv.1)
    ∧ "LP_PATCH_SYNC_ID" ∉
        ["PATCH_SYNC_TOKEN", "LP_DATABASE_CONNECTION_STRING",
         "LP_SERVER_SERVER_ADDRESS", "LP_SERVER_IS_LEADER"] := by
  decide

/-- C4 amended: for every ApplicationConfig, the environment finally
applied to the workload has exactly the keys obtained by the
uppercase/underscore/`LP_` transform of the config keys, union the fixed
extra names (`PATCH_SYNC_TOKEN`, `LP_DATABASE_CONNECTION_STRING`,
`LP_SERVER_SERVER_ADDRESS`, `LP_SERVER_IS_LEADER`), union — when
`patch-sync.enabled` is exactly `True` — `LP_PATCH_SYNC_ID`, minus every
entry whose assembled value is falsy. -/
theorem c4_config_mapper_keys :
    ∀ (cfg : Env) (dsn : String) (token : Option String) (ldr : Bool)
      (uuid : String) (q : String),
      (q ∈ keys (finalEnv cfg dsn token ldr uuid)
        ↔ ∃ v, getk (preEnv cfg dsn token ldr uuid) q = some v ∧ truthy v = true)
      ∧ ((getk (preEnv cfg dsn token ldr uuid) q).isSome = true
        ↔ ((∃ kv ∈ cfg, envKey kv.1 = q)
           ∨ q = "PATCH_SYNC_TOKEN" ∨ q = "LP_DATABASE_CONNECTION_STRING"
           ∨ q = "LP_SERVER_SERVER_ADDRESS" ∨ q = "LP_SERVER_IS_LEADER"
           ∨ (getk cfg "patch-sync.enabled" = some (.bool true)
              ∧ q = "LP_PATCH_SYNC_ID"))) := by
  intro cfg dsn token ldr uuid q
  constructor
  · rw [finalEnv, mem_keys_iff_getk]
    rw [getk_filter_truthy _ (nodup_keys_preEnv cfg dsn token ldr uuid) q]
    cases hg : getk (preEnv cfg dsn token ldr uuid) q with
    | none => simp
    | some w =>
      by_cases ht : truthy w <;> simp [ht]
  · rw [getk_preEnv]
    split_ifs with h1 h2 h3 h4 h5 <;> simp_all [getk_cfgToEnv_isSome]

/-- C8 (implicit): the falsy filter before the pebble layer removes every
entry whose Python value is falsy — `False`, `None`, `0` and `""` alike —
so `LP_SERVER_IS_LEADER` is absent from the workload environment on every
non-leader unit, and a configuration option set to `False` is
indistinguishable in the final environment from one that is unset (provided
the option's transformed key does not collide with another option's). -/
theorem c8_falsy_env_filter :
    ∀ (cfg : Env) (dsn : String) (token : Option String) (ldr : Bool)
      (uuid : String) (k q : String),
      (getk (finalEnv cfg dsn token false uuid) "LP_SERVER_IS_LEADER" = none)
      ∧ (∀ v, getk (finalEnv cfg dsn token ldr uuid) q = some v → truthy v = true)
      ∧ ((∀ kv ∈ cfg, envKey kv.1 ≠ envKey k) →
          getk (finalEnv (cfg ++ [(k, Value.bool false)]) dsn token ldr uuid) q
            = getk (finalEnv cfg dsn token ldr uuid) q) := by
  intro cfg dsn token ldr uuid k q
  refine ⟨?_, ?_, ?_⟩
  · rw [finalEnv, getk_filter_truthy _ (nodup_keys_preEnv cfg dsn token false uuid),
      getk_preEnv]
    simp [truthy]
  · intro v h
    rw [finalEnv, getk_filter_truthy _ (nodup_keys_preEnv cfg dsn token ldr uuid)] at h
    cases hg : getk (preEnv cfg dsn token ldr uuid) q with
    | none => simp [hg] at h
    | some w =>
      rw [hg] at h
      by_cases ht : truthy w
      · simp [ht] at h
        rw [← h]
        exact ht
      · simp [ht] at h
  · intro H
    have hps : (getk (cfg ++ [(k, Value.bool false)]) "patch-sync.enabled"
          = some (Value.bool true))
        ↔ (getk cfg "patch-sync.enabled" = some (Value.bool true)) := by
      rw [getk_append]
      cases hg : getk cfg "patch-sync.enabled"
      · by_cases hk : k = "patch-sync.enabled" <;> simp [getk, hk]
      · simp
    have hnone : getk (cfgToEnv cfg) (envKey k) = none := by
      cases hg : getk (cfgToEnv cfg) (envKey k) with
      | none => rfl
      | some v =>
        have hs : (getk (cfgToEnv cfg) (envKey k)).isSome := by simp [hg]
        rw [getk_cfgToEnv_isSome] at hs
        obtain ⟨kv, hkv, he⟩ := hs
        exact absurd he (H kv hkv)
    rw [finalEnv, finalEnv,
      getk_filter_truthy _ (nodup_keys_preEnv _ _ _ _ _) q,
      getk_filter_truthy _ (nodup_keys_preEnv _ _ _ _ _) q,
      getk_preEnv, getk_preEnv, cfgToEnv_append, getk_setk]
    simp only [hps]
    by_cases hq : q = envKey k
    · subst hq
      split_ifs <;> simp_all [truthy]
    · simp [hq]

/-- Witness for C8 at a concrete configuration: the leadership flag is
filtered out on a non-leader, an entry with a truthy value passes the
filter, and appending an option set to `False` leaves the final environment
lookups unchanged. -/
theorem c8_witness :
    (getk (finalEnv [("patch-cache.enabled", Value.bool true)] "d" (some "t") false "u")
        "LP_SERVER_IS_LEADER" = none)
    ∧ truthy (Value.bool true) = true
    ∧ getk (finalEnv ([("patch-cache.enabled", Value.bool true)]
          ++ [("server.is-hosted", Value.bool false)]) "d" (some "t") false "u")
        "LP_SERVER_IS_HOSTED"
      = getk (finalEnv [("patch-cache.enabled", Value.bool true)] "d" (some "t") false "u")
        "LP_SERVER_IS_HOSTED" :=
  ⟨(c8_falsy_env_filter [("patch-cache.enabled", Value.bool true)] "d" (some "t")
      false "u" "server.is-hosted" "LP_SERVER_IS_HOSTED").1,
   (c8_falsy_env_filter [("patch-cache.enabled", Value.bool true)] "d" (some "t")
      false "u" "server.is-hosted" "LP_PATCH_CACHE_ENABLED").2.1
     (Value.bool true) (by decide),
   (c8_falsy_env_filter [("patch-cache.enabled", Value.bool true)] "d" (some "t")
      false "u" "server.is-hosted" "LP_SERVER_IS_HOSTED").2.2 (by decide)⟩

end Livepatch
